import Mathlib

/-!
# Shallow embedding of the adonisjs-mongoose connection-management core

This file embeds the lifecycle/registry logic of the repository:

* `Connection` (src/connection/index.ts): config validation, connection-string
  building, and the connect/disconnect lifecycle of one wrapped driver handle;
* `ConnectionManager` (src/connection/manager.ts): the name-keyed registry,
  orphan tracking, and the add/connect/patch/close/release operations;
* `Database` (src/database/main.ts): the facade whose `connection()` kicks off
  a fire-and-forget connect and returns the raw driver handle;
* `BaseModel.getModel`/`clearCache`
  (packages/adonisjs-mongoose/src/model/base_model.ts): the compiled-model
  cache keyed by "connectionName:className";
* `defineConfig` (packages/adonisjs-mongoose/src/define_config.ts).

Modelling conventions:
* JavaScript string falsiness (`undefined` or `""`) is `truthyStr = false`;
  number falsiness (`undefined` or `0`) is `truthyNat = false`.
* Objects reached through references are stored by value; object identity
  (needed for the orphan `Set` and for "same compiled model") is carried by a
  fresh-`Nat` `id` field drawn from a monotone counter in the state.
* `async` functions run synchronously up to their first `await`; the
  "sync prefix" of an operation is embedded separately from its resolved
  completion where a claim depends on the distinction. Exceptions thrown
  inside an `async` body become rejected promises, not synchronous throws.
* Exceptions are `Except String`, carrying the exact message built by the
  source.
* The driver (`mongoose`) is external: `mongoose.createConnection` returns a
  handle synchronously in readyState 2 (connecting); a successful handshake
  moves it to readyState 1 and fires the `connected` event; a close fires the
  `disconnected` event. Driver `options` are passed through opaquely and are
  not modelled.
-/

/-- JS truthiness of an optional string: `undefined` and `""` are falsy. -/
def truthyStr : Option String → Bool
  | none => false
  | some s => !(s == "")

/-- JS truthiness of an optional number: `undefined` and `0` are falsy. -/
def truthyNat : Option Nat → Bool
  | none => false
  | some n => !(n == 0)

/-- JS template-literal rendering of a possibly-undefined string. -/
def jsShow : Option String → String
  | none => "undefined"
  | some s => s

/-- Whether an `Except` is a success (`.ok`). -/
def exceptIsOk : Except String α → Bool
  | .ok _ => true
  | .error _ => false

/-- The payload of a successful `Except`, with a default for the error case. -/
def exceptGetD (e : Except String α) (d : α) : α :=
  match e with
  | .ok a => a
  | .error _ => d

/-- `MongoDBConnectionNode` (src/types/main.ts): the discrete endpoint fields. -/
structure MongoDBConnectionNode where
  host : Option String
  port : Option Nat
  database : Option String
  user : Option String
  password : Option String
deriving DecidableEq, Repr

/-- `MongooseConnectionConfig` (src/types/main.ts). The driver `options`
object is passed through opaquely by the code and is not modelled. -/
structure MongooseConnectionConfig where
  uri : Option String
  connection : Option MongoDBConnectionNode
  debug : Option Bool
deriving DecidableEq, Repr

/-- `Connection.#validateConfig` (src/connection/index.ts lines 41-56), run by
the constructor. Throws when neither `uri` nor `connection` is truthy, and,
when `connection` is given without a truthy `uri`, when `host` or `database`
is falsy. -/
def Connection.validateConfig (name : String) (config : MongooseConnectionConfig) :
    Except String Unit :=
  if !truthyStr config.uri && config.connection.isNone then
    .error ("Connection \"" ++ name ++
      "\" must have either \"uri\" or \"connection\" options defined")
  else
    match config.connection with
    | some c =>
      if !truthyStr config.uri then
        if !truthyStr c.host || !truthyStr c.database then
          .error ("Connection \"" ++ name ++
            "\" must have \"host\" and \"database\" defined when using connection options")
        else .ok ()
      else .ok ()
    | none => .ok ()

/-- `Connection.#buildConnectionUri` (src/connection/index.ts lines 61-71).
`none` is the `TypeError` of destructuring `this.config.connection!` when it
is `undefined` (unreachable after validation). -/
def Connection.buildConnectionUri (config : MongooseConnectionConfig) : Option String :=
  if truthyStr config.uri then config.uri
  else
    match config.connection with
    | none => none
    | some c =>
      let auth := if truthyStr c.user && truthyStr c.password then
        jsShow c.user ++ ":" ++ jsShow c.password ++ "@" else ""
      let portString := if truthyNat c.port then ":" ++ toString (c.port.getD 0) else ""
      some ("mongodb://" ++ auth ++ jsShow c.host ++ portString ++ "/" ++ jsShow c.database)

/-- Modelled from the spec and the claim's words, for comparison with
`Connection.validateConfig`: "exactly one of `uri` or `connection.{host,database}`
must be resolvable to a valid endpoint" ("set" read as JS-truthy). -/
def specExactlyOneAlternative (config : MongooseConnectionConfig) : Bool :=
  let uriSet := truthyStr config.uri
  let connSet := match config.connection with
    | some c => truthyStr c.host && truthyStr c.database
    | none => false
  xor uriSet connSet

/-- Whether a `connection.{host,database}` alternative is present and truthy. -/
def connAlternative (config : MongooseConnectionConfig) : Bool :=
  match config.connection with
  | some c => truthyStr c.host && truthyStr c.database
  | none => false

/-- Written from the claim's words, for comparison with
`Connection.buildConnectionUri`: the auth part `A`, namely
`'user:password@'` when both user and password are set and empty otherwise. -/
def specAuthPart (c : MongoDBConnectionNode) : String :=
  if truthyStr c.user && truthyStr c.password then
    c.user.getD "" ++ ":" ++ c.password.getD "" ++ "@"
  else ""

/-- Written from the claim's words, for comparison with
`Connection.buildConnectionUri`: the port part `P`, namely `':port'` when
port is set and empty otherwise. -/
def specPortPart (c : MongoDBConnectionNode) : String :=
  if truthyNat c.port then ":" ++ toString (c.port.getD 0) else ""

/-- Input of `defineConfig` as a runtime value: TypeScript requires both
fields, but the function guards against their absence, so both are optional
here and the whole object may be missing. -/
structure DefineConfigInput where
  connection : Option String
  connections : Option (List (String × MongooseConnectionConfig))
deriving DecidableEq, Repr

/-- Association-list lookup mirroring a JS object / `Map` key lookup. -/
def assocGet (l : List (String × α)) (k : String) : Option α :=
  match l with
  | [] => none
  | (key, v) :: rest => if key = k then some v else assocGet rest k

/-- `Map.set` / keyed assignment: overwrite the first binding in place, or
append when the key is absent. -/
def assocSet (l : List (String × α)) (k : String) (v : α) : List (String × α) :=
  match l with
  | [] => [(k, v)]
  | (key, old) :: rest =>
    if key = k then (key, v) :: rest else (key, old) :: assocSet rest k v

/-- `Map.delete`: drop every binding of the key. -/
def assocDel (l : List (String × α)) (k : String) : List (String × α) :=
  l.filter (fun p => p.1 ≠ k)

/-- `defineConfig` (packages/adonisjs-mongoose/src/define_config.ts lines
38-68): fail fast on a missing config object, missing `connections`, missing
(falsy) `connection`, or a default name with no entry; otherwise return the
config unchanged. -/
def defineConfig (config : Option DefineConfigInput) : Except String DefineConfigInput :=
  match config with
  | none => .error "Invalid config. It must be an object"
  | some cfg =>
    match cfg.connections with
    | none => .error "Missing \"connections\" property in the mongoose config file"
    | some conns =>
      if !truthyStr cfg.connection then
        .error "Missing \"connection\" property in mongoose config. Specify a default connection to use"
      else
        let name := cfg.connection.getD ""
        match assocGet conns name with
        | none => .error ("Missing \"connections." ++ name ++
            "\". It is referenced by the \"default\" mongoose connection")
        | some _ => .ok cfg

/-- State of a `ConnectionNode` (src/types/main.ts line 77). -/
inductive NodeState
  | registered
  | connecting
  | open_
  | closing
  | closed
deriving DecidableEq, Repr

/-- Internal state flag of a `Connection` wrapper
(src/connection/index.ts line 27). -/
inductive ConnState
  | idle
  | connecting
  | connected
  | disconnecting
  | disconnected
deriving DecidableEq, Repr

/-- The native mongoose connection handle, as far as the code observes it:
an identity and a `readyState` (0 disconnected, 1 connected, 2 connecting,
3 disconnecting). -/
structure NativeConn where
  id : Nat
  readyState : Nat
deriving DecidableEq, Repr

/-- One `Connection` wrapper object (src/connection/index.ts): its `name` and
`config` are readonly constructor arguments, `state` is the private `#state`
flag, `handle` the private `#connection` driver handle. `id` carries object
identity. -/
structure Conn where
  id : Nat
  name : String
  config : MongooseConnectionConfig
  state : ConnState
  handle : Option NativeConn
deriving DecidableEq, Repr

/-- `ConnectionNode` (src/types/main.ts lines 73-78). -/
structure ConnectionNode where
  name : String
  config : MongooseConnectionConfig
  connection : Option Conn
  state : NodeState
deriving DecidableEq, Repr

/-- Kind of a manager-level emitted event. -/
inductive DbEventKind
  | connect
  | disconnect
  | error
deriving DecidableEq, Repr

/-- An emitted `mongodb:connection:*` event (timestamp not modelled). -/
structure DbEvent where
  kind : DbEventKind
  connection : String
deriving DecidableEq, Repr

/-- The mutable state of one `ConnectionManager`
(src/connection/manager.ts): the `connections` map, the `#orphanConnections`
set, the log of emitted events, plus bookkeeping for the embedding: the
orphan disconnects started (asynchronously) by `patch`, and a fresh-identity
counter for newly constructed `Connection` wrappers and driver handles. -/
structure ManagerState where
  connections : List (String × ConnectionNode)
  orphans : List Conn
  pendingDisconnects : List Conn
  events : List DbEvent
  nextId : Nat
deriving DecidableEq, Repr

/-- `ConnectionManager.get` (manager.ts lines 275-277). -/
def ManagerState.get (s : ManagerState) (connectionName : String) : Option ConnectionNode :=
  assocGet s.connections connectionName

/-- `ConnectionManager.has` (manager.ts lines 282-284). -/
def ManagerState.has (s : ManagerState) (connectionName : String) : Bool :=
  (ManagerState.get s connectionName).isSome

/-- `ConnectionManager.isConnected` (manager.ts lines 289-296): registered,
with a live `connection` reference, and node state `'open'`. -/
def ConnectionManager.isConnected (s : ManagerState) (connectionName : String) : Bool :=
  match ManagerState.get s connectionName with
  | none => false
  | some node => node.connection.isSome && node.state == NodeState.open_

/-- `ConnectionManager.add` (manager.ts lines 224-237): silently skip an
existing name, else register a node in `registered` state. -/
def ConnectionManager.add (s : ManagerState) (connectionName : String)
    (config : MongooseConnectionConfig) : ManagerState :=
  if ManagerState.has s connectionName then s
  else
    { s with connections := s.connections ++
        [(connectionName,
          { name := connectionName, config := config, connection := none,
            state := NodeState.registered })] }

/-- `ConnectionManager.#handleConnect` (manager.ts lines 154-167): on a
wrapper's `connected` event, if the node still exists, emit a connect event
and mark the node `open`. -/
def ConnectionManager.handleConnect (s : ManagerState) (c : Conn) : ManagerState :=
  match ManagerState.get s c.name with
  | none => s
  | some node =>
    { s with
      events := s.events ++ [{ kind := DbEventKind.connect, connection := c.name }],
      connections := assocSet s.connections c.name { node with state := NodeState.open_ } }

/-- `ConnectionManager.#handleDisconnect` (manager.ts lines 172-199): an
orphan (identity member of the orphan set) is removed from the set and a
disconnect event emitted, the registry untouched; otherwise, if the node
exists, a disconnect event is emitted, the node's connection reference
cleared, and its state set to `closed`. -/
def ConnectionManager.handleDisconnect (s : ManagerState) (c : Conn) : ManagerState :=
  if s.orphans.any (fun o => o.id == c.id) then
    { s with
      orphans := s.orphans.filter (fun o => !(o.id == c.id)),
      events := s.events ++ [{ kind := DbEventKind.disconnect, connection := c.name }] }
  else
    match ManagerState.get s c.name with
    | none => s
    | some node =>
      { s with
        events := s.events ++ [{ kind := DbEventKind.disconnect, connection := c.name }],
        connections := assocSet s.connections c.name
          { node with connection := none, state := NodeState.closed } }

/-- `ConnectionManager.#handleError` (manager.ts lines 204-210): re-emit an
error event; no state change. -/
def ConnectionManager.handleError (s : ManagerState) (c : Conn) : ManagerState :=
  { s with events := s.events ++ [{ kind := DbEventKind.error, connection := c.name }] }

/-- `Connection.disconnect` (src/connection/index.ts lines 201-223) as
observed by the manager that monitors the wrapper: a no-op when the wrapper
has no handle or is already `disconnected`; otherwise the driver close fires
`disconnected`, the wrapper relays it (manager runs `#handleDisconnect`),
and the wrapper ends with no handle in state `disconnected`. Takes the
node's optional reference to match `connection.connection!.disconnect()`
call sites. -/
def ConnectionManager.disconnectConn (s : ManagerState) (oc : Option Conn) : ManagerState :=
  match oc with
  | none => s
  | some c =>
    if c.handle.isNone || c.state == ConnState.disconnected then s
    else
      ConnectionManager.handleDisconnect s
        { c with state := ConnState.disconnected, handle := none }

/-- Error message of `ConnectionManager.connect` for an unregistered name
(manager.ts lines 246-248). -/
def notRegisteredMsg (connectionName : String) : String :=
  "Connection \"" ++ connectionName ++
    "\" is not registered. Make sure to add it first using manager.add()"

/-- `ConnectionManager.connect` (manager.ts lines 242-270), resolved along
the success path: throw for an unregistered name; return unchanged when
already connected; otherwise set the node `connecting`, construct a new
`Connection` (whose constructor validates the config — a validation throw
rejects the returned promise), run the wrapper's `connect()` (driver handle
created in readyState 2), and — the driver handshake succeeding — process
the `connected` event (wrapper `connected`, handle readyState 1, manager
`#handleConnect` marks the node `open`). -/
def ConnectionManager.connectResolved (s : ManagerState) (connectionName : String) :
    Except String ManagerState :=
  match ManagerState.get s connectionName with
  | none => .error (notRegisteredMsg connectionName)
  | some node =>
    if ConnectionManager.isConnected s connectionName then .ok s
    else
      match Connection.validateConfig connectionName node.config with
      | .error e => .error e
      | .ok _ =>
        let cdone : Conn :=
          { id := s.nextId, name := connectionName, config := node.config,
            state := ConnState.connected,
            handle := some { id := s.nextId, readyState := 1 } }
        let node3 := { node with state := NodeState.connecting, connection := some cdone }
        let s3 := { s with connections := assocSet s.connections connectionName node3,
                           nextId := s.nextId + 1 }
        .ok (ConnectionManager.handleConnect s3 cdone)

/-- The synchronous prefix of a fire-and-forget
`this.manager.connect(name).catch(...)` call (database/main.ts line 514):
the `async` body runs up to its first `await`. An unregistered name or a
config-validation throw rejects the promise (caught and logged), leaving the
node without a connection reference; otherwise the node is set `connecting`
and receives a freshly constructed wrapper whose own `connect()` has run up
to its first `await`, so a driver handle in readyState 2 is already
attached. -/
def ConnectionManager.connectKickoff (s : ManagerState) (connectionName : String) :
    ManagerState :=
  match ManagerState.get s connectionName with
  | none => s
  | some node =>
    if ConnectionManager.isConnected s connectionName then s
    else
      let node1 := { node with state := NodeState.connecting }
      match Connection.validateConfig connectionName node.config with
      | .error _ => { s with connections := assocSet s.connections connectionName node1 }
      | .ok _ =>
        let c : Conn :=
          { id := s.nextId, name := connectionName, config := node.config,
            state := ConnState.connecting,
            handle := some { id := s.nextId, readyState := 2 } }
        { s with
          connections := assocSet s.connections connectionName
            { node1 with connection := some c },
          nextId := s.nextId + 1 }

/-- `ConnectionManager.patch` (manager.ts lines 301-324): an unknown name is
an `add`; otherwise a live connection is moved to the orphan set and its
disconnect started asynchronously (errors logged by the `.catch`, never
thrown — the function stays total), then the node is reset to `registered`
with the new config and its connection reference cleared. -/
def ConnectionManager.patch (s : ManagerState) (connectionName : String)
    (config : MongooseConnectionConfig) : ManagerState :=
  match ManagerState.get s connectionName with
  | none => ConnectionManager.add s connectionName config
  | some node =>
    let s1 :=
      match node.connection with
      | some c =>
        { s with
          orphans := if s.orphans.any (fun o => o.id == c.id) then s.orphans
                     else s.orphans ++ [c],
          pendingDisconnects := s.pendingDisconnects ++ [c] }
      | none => s
    let node1 := { node with state := NodeState.registered, config := config,
                             connection := none }
    { s1 with connections := assocSet s1.connections connectionName node1 }

/-- The connected branch of `ConnectionManager.close` (manager.ts lines
330-334): mark the node `closing`, then await the wrapper's `disconnect()`
(which drives `#handleDisconnect`). A no-op when not connected. -/
def ConnectionManager.closeBody (s : ManagerState) (connectionName : String) : ManagerState :=
  if ConnectionManager.isConnected s connectionName then
    match ManagerState.get s connectionName with
    | none => s
    | some node =>
      let node1 := { node with state := NodeState.closing }
      let s2 := { s with connections := assocSet s.connections connectionName node1 }
      ConnectionManager.disconnectConn s2 node.connection
  else s

mutual

/-- `ConnectionManager.close` / `ConnectionManager.release` (manager.ts lines
329-339 and 354-360), mutually recursive as in the source; the general
recursion is embedded with explicit fuel, each recursive call spending one
unit. Fuel 0 returns the state unchanged (never reached from the entry
points, see the termination theorem). -/
def ConnectionManager.closeFuel : Nat → ManagerState → String → Bool → ManagerState
  | 0, s, _, _ => s
  | fuel + 1, s, connectionName, release =>
    let s1 := ConnectionManager.closeBody s connectionName
    if release then ConnectionManager.releaseFuel fuel s1 connectionName else s1

/-- `ConnectionManager.release` with fuel: close-and-recurse when connected,
else delete the registry entry. See `ConnectionManager.closeFuel`. -/
def ConnectionManager.releaseFuel : Nat → ManagerState → String → ManagerState
  | 0, s, _ => s
  | fuel + 1, s, connectionName =>
    if ConnectionManager.isConnected s connectionName then
      ConnectionManager.closeFuel fuel s connectionName true
    else
      { s with connections := assocDel s.connections connectionName }

end

/-- `ConnectionManager.close(name, release)` at sufficient fuel. -/
def ConnectionManager.close (s : ManagerState) (connectionName : String)
    (release : Bool) : ManagerState :=
  ConnectionManager.closeFuel 2 s connectionName release

/-- `ConnectionManager.release(name)` at sufficient fuel. -/
def ConnectionManager.release (s : ManagerState) (connectionName : String) : ManagerState :=
  ConnectionManager.releaseFuel 3 s connectionName

/-- `DatabaseConfig` (src/types/main.ts lines 56-68). -/
structure DatabaseConfig where
  connection : String
  connections : List (String × MongooseConnectionConfig)
deriving DecidableEq, Repr

/-- The `Database` facade (src/database/main.ts): owns one manager, records
the primary connection name. -/
structure Database where
  config : DatabaseConfig
  manager : ManagerState
  primaryConnectionName : String
deriving DecidableEq, Repr

/-- The empty `ConnectionManager` built by the `Database` constructor. -/
def ManagerState.empty : ManagerState :=
  { connections := [], orphans := [], pendingDisconnects := [], events := [], nextId := 0 }

/-- The `Database` constructor (database/main.ts lines 462-473): create a
manager, record the primary name, and register every configured connection
(`#registerConnections`, lines 478-482). -/
def Database.new (config : DatabaseConfig) : Database :=
  let manager := config.connections.foldl
    (fun s p => ConnectionManager.add s p.1 p.2) ManagerState.empty
  { config := config, manager := manager, primaryConnectionName := config.connection }

/-- `Database.getRawConnection` (database/main.ts lines 487-489). -/
def Database.getRawConnection (db : Database) (name : String) : Option ConnectionNode :=
  ManagerState.get db.manager name

/-- `Database.connection` (database/main.ts lines 495-534), a synchronous
method: fail for an unconfigured name; when not connected, fire and forget
`manager.connect` (its synchronous prefix runs before this method continues,
see `ConnectionManager.connectKickoff`; a rejection is logged
asynchronously); then re-read the node's connection reference — absent means
the "not ready" error — and return the wrapper's native handle through its
`connection` getter, which itself throws when no handle is attached
(src/connection/index.ts lines 113-118). `none` as the argument is an
omitted argument, defaulted to the primary name. -/
def Database.connection (db : Database) (nameArg : Option String) :
    Except String (NativeConn × Database) :=
  let connectionName := nameArg.getD db.primaryConnectionName
  match ManagerState.get db.manager connectionName with
  | none => .error ("Connection \"" ++ connectionName ++
      "\" is not configured. Check your database config")
  | some _ =>
    let m1 := if ConnectionManager.isConnected db.manager connectionName then db.manager
              else ConnectionManager.connectKickoff db.manager connectionName
    match (ManagerState.get m1 connectionName).bind (fun node => node.connection) with
    | none => .error ("Connection \"" ++ connectionName ++
        "\" is not ready. This is likely a connection timing issue.")
    | some c =>
      match c.handle with
      | none => .error ("Connection \"" ++ c.name ++
          "\" is not established. Call connect() first.")
      | some h => .ok (h, { db with manager := m1 })

/-- A compiled mapper model (the result of `connection.model(...)`): opaque
except for identity and the name it was compiled under. -/
structure CompiledModel where
  id : Nat
  modelName : String
deriving DecidableEq, Repr

/-- The static configuration of one `BaseModel` subclass
(packages/adonisjs-mongoose/src/model/base_model.ts lines 36-64):
`className` is the JS class `name`, `schema` an opaque token (`none` when
the subclass defines no schema). -/
structure ModelClass where
  className : String
  connection : Option String
  collectionName : Option String
  schema : Option Nat
deriving DecidableEq, Repr

/-- The process-wide state seen by `BaseModel`: the injected `$db` database,
the shared `modelCache`, and a fresh-identity counter for compiled models. -/
structure AppState where
  db : Database
  modelCache : List (String × CompiledModel)
  nextModelId : Nat
deriving DecidableEq, Repr

/-- The connection-name resolution of base_model.ts line 102:
`this.connection || this.$db.primaryConnectionName`. -/
def BaseModel.resolvedConnectionName (cls : ModelClass) (st : AppState) : String :=
  if truthyStr cls.connection then cls.connection.getD ""
  else st.db.primaryConnectionName

/-- The cache key `"connectionName:className"` of base_model.ts line 103. -/
def BaseModel.cacheKey (cls : ModelClass) (st : AppState) : String :=
  BaseModel.resolvedConnectionName cls st ++ ":" ++ cls.className

/-- `BaseModel.getModel`
(packages/adonisjs-mongoose/src/model/base_model.ts lines 95-121): fail when
no schema is defined; resolve the connection name (`this.connection ||
this.$db.primaryConnectionName`); return the cached model under
`"connectionName:className"` when present; otherwise resolve the connection
through `getConnection` (which calls `this.$db.connection(...)` and can
throw), compile a fresh model, cache it and return it. -/
def BaseModel.getModel (cls : ModelClass) (st : AppState) :
    Except String (CompiledModel × AppState) :=
  if cls.schema.isNone then
    .error ("Schema not defined for model " ++ cls.className ++
      ". Define a static schema property in your model class.")
  else
    let connectionName := BaseModel.resolvedConnectionName cls st
    let cacheKey := BaseModel.cacheKey cls st
    match assocGet st.modelCache cacheKey with
    | some m => .ok (m, st)
    | none =>
      match Database.connection st.db (some connectionName) with
      | .error e => .error e
      | .ok (_, db2) =>
        let m : CompiledModel := { id := st.nextModelId, modelName := cls.className }
        .ok (m, { db := db2,
                  modelCache := assocSet st.modelCache cacheKey m,
                  nextModelId := st.nextModelId + 1 })

/-- `BaseModel.clearCache`
(packages/adonisjs-mongoose/src/model/base_model.ts lines 126-128). -/
def BaseModel.clearCache (st : AppState) : AppState :=
  { st with modelCache := [] }

/-- Well-formedness of the model cache: every cached model's identity is
below the fresh counter (true initially, preserved by the operations). -/
def modelCacheWF (st : AppState) : Bool :=
  st.modelCache.all (fun p => p.2.id < st.nextModelId)

/-- Reading back the key just written. -/
theorem assocGet_set_self (l : List (String × α)) (k : String) (v : α) :
    assocGet (assocSet l k v) k = some v := by
  induction l with
  | nil => simp [assocGet, assocSet]
  | cons hd tl ih =>
    obtain ⟨key, old⟩ := hd
    by_cases h : key = k
    · simp [assocGet, assocSet, h]
    · simp [assocGet, assocSet, h, ih]

/-- Writing one key leaves every other key's binding unchanged. -/
theorem assocGet_set_ne (l : List (String × α)) (k q : String) (v : α) (h : q ≠ k) :
    assocGet (assocSet l k v) q = assocGet l q := by
  induction l with
  | nil => simp [assocGet, assocSet, Ne.symm h]
  | cons hd tl ih =>
    obtain ⟨key, old⟩ := hd
    by_cases hk : key = k
    · subst hk
      simp [assocGet, assocSet, Ne.symm h]
    · simp only [assocSet, if_neg hk]
      by_cases hq : key = q
      · simp [assocGet, hq]
      · simp [assocGet, hq, ih]

/-- Appending a binding for an absent key makes it readable. -/
theorem assocGet_append_absent (l : List (String × α)) (k : String) (v : α)
    (h : assocGet l k = none) : assocGet (l ++ [(k, v)]) k = some v := by
  induction l with
  | nil => simp [assocGet]
  | cons hd tl ih =>
    obtain ⟨key, old⟩ := hd
    by_cases hk : key = k
    · simp [assocGet, hk] at h
    · simp only [assocGet, if_neg hk] at h
      simpa [assocGet, hk] using ih h

/-- Appending a binding leaves every other key's binding unchanged. -/
theorem assocGet_append_ne (l : List (String × α)) (k q : String) (v : α) (h : q ≠ k) :
    assocGet (l ++ [(k, v)]) q = assocGet l q := by
  induction l with
  | nil => simp [assocGet, Ne.symm h]
  | cons hd tl ih =>
    obtain ⟨key, old⟩ := hd
    by_cases hq : key = q
    · simp [assocGet, hq]
    · simp [assocGet, hq, ih]

/-- A deleted key reads back as absent. -/
theorem assocGet_del_self (l : List (String × α)) (k : String) :
    assocGet (assocDel l k) k = none := by
  induction l with
  | nil => simp [assocGet, assocDel]
  | cons hd tl ih =>
    obtain ⟨key, old⟩ := hd
    by_cases hk : key = k
    · simpa [assocDel, hk] using ih
    · simpa [assocDel, assocGet, hk] using ih

/-- When an optional string is truthy, template rendering and `getD ""`
agree. -/
theorem jsShow_eq_getD_of_truthy (o : Option String) (h : truthyStr o = true) :
    jsShow o = o.getD "" := by
  cases o with
  | none => simp [truthyStr] at h
  | some s => rfl

/-- C9: the built connection string equals `config.uri` whenever `uri` is
set (JS-truthy, so URI takes precedence over the discrete fields); otherwise,
for a present `connection` block with `host` and `database` set, it equals
`"mongodb://" ++ A ++ host ++ P ++ "/" ++ database`, with `A` the
user-password part and `P` the port part exactly as the claim states them
(`specAuthPart`, `specPortPart`). -/
theorem Connection.buildConnectionUri_matches_spec (cfg : MongooseConnectionConfig) :
    (truthyStr cfg.uri = true → Connection.buildConnectionUri cfg = cfg.uri) ∧
    (truthyStr cfg.uri = false →
      ∀ c hostV dbV, cfg.connection = some c → c.host = some hostV →
        c.database = some dbV →
        Connection.buildConnectionUri cfg =
          some ("mongodb://" ++ specAuthPart c ++ hostV ++ specPortPart c ++ "/" ++ dbV)) := by
  constructor
  · intro h
    simp [Connection.buildConnectionUri, h]
  · intro h c hostV dbV hconn hhost hdb
    simp only [Connection.buildConnectionUri, h, Bool.false_eq_true, if_false, hconn]
    have hauth : (if truthyStr c.user && truthyStr c.password then
        jsShow c.user ++ ":" ++ jsShow c.password ++ "@" else "") = specAuthPart c := by
      by_cases hu : truthyStr c.user = true
      · by_cases hp : truthyStr c.password = true
        · simp [specAuthPart, hu, hp, jsShow_eq_getD_of_truthy _ hu,
            jsShow_eq_getD_of_truthy _ hp]
        · simp [specAuthPart, hu, hp]
      · simp [specAuthPart, hu]
    rw [hauth, hhost, hdb]
    simp [specPortPart, jsShow]

/-- A discrete endpoint block with every field set. -/
def endpointAllFields : MongoDBConnectionNode :=
  { host := some "localhost", port := some 27017, database := some "mydb",
    user := some "u", password := some "p" }

/-- A config using only the discrete endpoint block. -/
def cfgDiscreteOnly : MongooseConnectionConfig :=
  { uri := none, connection := some endpointAllFields, debug := none }

/-- C9 witness: a concrete config with every discrete field set. -/
theorem Connection.buildConnectionUri_matches_spec_witness :
    Connection.buildConnectionUri cfgDiscreteOnly =
      some ("mongodb://" ++ specAuthPart endpointAllFields ++ "localhost" ++
        specPortPart endpointAllFields ++ "/" ++ "mydb") :=
  (Connection.buildConnectionUri_matches_spec cfgDiscreteOnly).2 rfl
    endpointAllFields "localhost" "mydb" rfl rfl rfl

/-- A config in which both alternatives — a truthy `uri` and a `connection`
block with truthy `host` and `database` — are present. -/
def cfgBothAlternatives : MongooseConnectionConfig :=
  { uri := some "mongodb://h/d",
    connection := some { host := some "h", port := none, database := some "d",
                         user := none, password := none },
    debug := none }

/-- C3 counterexample: `Connection.#validateConfig` accepts a config in which
both alternatives are present, so "a config is accepted only when exactly one
of the two alternatives is present" is false at `cfgBothAlternatives`. -/
theorem Connection.validateConfig_accepts_both_alternatives :
    Connection.validateConfig "x" cfgBothAlternatives = Except.ok () ∧
      specExactlyOneAlternative cfgBothAlternatives = false := by
  constructor
  · rfl
  · rfl

/-- C3 (amended): construction fails immediately iff no alternative is
resolvable — a config is accepted exactly when the `uri` is truthy or the
`connection` block carries truthy `host` and `database`; at least one
alternative is required, but configs with both are accepted. -/
theorem Connection.validateConfig_accepts_iff (name : String)
    (cfg : MongooseConnectionConfig) :
    Connection.validateConfig name cfg = Except.ok () ↔
      (truthyStr cfg.uri = true ∨ connAlternative cfg = true) := by
  rcases hc : cfg.connection with _ | c
  · by_cases hu : truthyStr cfg.uri = true
    · simp [Connection.validateConfig, connAlternative, hc, hu]
    · simp only [Bool.not_eq_true] at hu
      simp [Connection.validateConfig, connAlternative, hc, hu]
  · by_cases hu : truthyStr cfg.uri = true
    · simp [Connection.validateConfig, connAlternative, hc, hu]
    · simp only [Bool.not_eq_true] at hu
      by_cases hh : truthyStr c.host = true
      · by_cases hd : truthyStr c.database = true
        · simp [Connection.validateConfig, connAlternative, hc, hu, hh, hd]
        · simp only [Bool.not_eq_true] at hd
          simp [Connection.validateConfig, connAlternative, hc, hu, hh, hd]
      · simp only [Bool.not_eq_true] at hh
        simp [Connection.validateConfig, connAlternative, hc, hu, hh]

/-- C7: `defineConfig` fails fast — with the exact descriptive message — when
the config object is missing, when `connections` is missing, when
`connection` is missing (falsy), or when `connections` has no entry for the
default name (the message naming that entry); otherwise it returns the
config unchanged. -/
theorem defineConfig_validation :
    (defineConfig none = Except.error "Invalid config. It must be an object") ∧
    (∀ cfg : DefineConfigInput, cfg.connections = none →
      defineConfig (some cfg) =
        Except.error "Missing \"connections\" property in the mongoose config file") ∧
    (∀ cfg : DefineConfigInput, ∀ conns, cfg.connections = some conns →
      truthyStr cfg.connection = false →
      defineConfig (some cfg) = Except.error
        "Missing \"connection\" property in mongoose config. Specify a default connection to use") ∧
    (∀ cfg : DefineConfigInput, ∀ conns name, cfg.connections = some conns →
      cfg.connection = some name → truthyStr cfg.connection = true →
      assocGet conns name = none →
      defineConfig (some cfg) = Except.error ("Missing \"connections." ++ name ++
        "\". It is referenced by the \"default\" mongoose connection")) ∧
    (∀ cfg : DefineConfigInput, ∀ conns name entry, cfg.connections = some conns →
      cfg.connection = some name → truthyStr cfg.connection = true →
      assocGet conns name = some entry →
      defineConfig (some cfg) = Except.ok cfg) := by
  refine ⟨rfl, ?_, ?_, ?_, ?_⟩
  · intro cfg h
    simp [defineConfig, h]
  · intro cfg conns h hfalsy
    simp [defineConfig, h, hfalsy]
  · intro cfg conns name h hname htruthy hmiss
    rw [hname] at htruthy
    simp [defineConfig, h, hname, htruthy, Option.getD, hmiss]
  · intro cfg conns name entry h hname htruthy hhit
    rw [hname] at htruthy
    simp [defineConfig, h, hname, htruthy, Option.getD, hhit]

/-- The claim's scenario input `{connection: 'x', connections: {}}`. -/
def defineConfigMissingX : DefineConfigInput :=
  { connection := some "x", connections := some [] }

/-- A complete input whose default name has an entry. -/
def defineConfigComplete : DefineConfigInput :=
  { connection := some "x", connections := some [("x", cfgBothAlternatives)] }

/-- C7 witness: the claim's scenario `{connection: 'x', connections: {}}`
fails naming the missing `x` entry, and a complete config is returned
unchanged. -/
theorem defineConfig_validation_witness :
    defineConfig (some defineConfigMissingX) =
      Except.error ("Missing \"connections." ++ "x" ++
        "\". It is referenced by the \"default\" mongoose connection") ∧
    defineConfig (some defineConfigComplete) = Except.ok defineConfigComplete :=
  ⟨defineConfig_validation.2.2.2.1 defineConfigMissingX [] "x" rfl rfl rfl rfl,
   defineConfig_validation.2.2.2.2 defineConfigComplete [("x", cfgBothAlternatives)]
     "x" cfgBothAlternatives rfl rfl rfl rfl⟩

/-- C8: `connect(name)` for a name never passed to `add` rejects with the
"not registered" error. -/
theorem ConnectionManager.connect_unregistered_fails (s : ManagerState)
    (connectionName : String) (h : ManagerState.get s connectionName = none) :
    ConnectionManager.connectResolved s connectionName =
      Except.error (notRegisteredMsg connectionName) := by
  simp [ConnectionManager.connectResolved, h]

/-- C8 witness: the empty manager rejects `connect("ghost")`. -/
theorem ConnectionManager.connect_unregistered_fails_witness :
    ConnectionManager.connectResolved ManagerState.empty "ghost" =
      Except.error (notRegisteredMsg "ghost") :=
  ConnectionManager.connect_unregistered_fails ManagerState.empty "ghost" rfl

/-- The claim's end-to-end configuration:
`{connection: 'primary', connections: {primary: {uri: 'mongodb://localhost/test'}}}`. -/
def dbScenarioConfig : DatabaseConfig :=
  { connection := "primary",
    connections := [("primary",
      { uri := some "mongodb://localhost/test", connection := none, debug := none })] }

/-- The `Database` constructed from `dbScenarioConfig`, before any connect. -/
def dbScenario : Database := Database.new dbScenarioConfig

/-- The very first synchronous `db.connection('primary')` on the fresh
scenario database. -/
def dbScenarioFirstCall : Except String (NativeConn × Database) :=
  Database.connection dbScenario (some "primary")

/-- C1 counterexample: the very first synchronous `db.connection('primary')`
on the freshly constructed scenario `Database` does NOT fail with a "not
ready" error — the fire-and-forget `manager.connect` runs synchronously up
to its first `await`, attaching the wrapper and its driver handle before the
method reads the node, so the call returns the still-connecting handle
(readyState 2). -/
theorem Database.connection_first_call_not_error :
    exceptIsOk dbScenarioFirstCall = true ∧
      (exceptGetD dbScenarioFirstCall
        ({ id := 0, readyState := 0 }, dbScenario)).1.readyState = 2 := by
  constructor
  · rfl
  · rfl

/-- The database state after the first synchronous call. -/
def dbScenarioAfterFirst : Database :=
  (exceptGetD dbScenarioFirstCall ({ id := 0, readyState := 0 }, dbScenario)).2

/-- The manager state after an explicit `manager.connect('primary')` has
resolved. -/
def mgrScenarioConnected : ManagerState :=
  exceptGetD (ConnectionManager.connectResolved dbScenario.manager "primary")
    dbScenario.manager

/-- The scenario database once its manager has connected. -/
def dbScenarioConnected : Database := { dbScenario with manager := mgrScenarioConnected }

/-- `db.connection('primary')` after the explicit connect has resolved. -/
def dbScenarioSecondCall : Except String (NativeConn × Database) :=
  Database.connection dbScenarioConnected (some "primary")

/-- C1 (amended): on the scenario config, the very first synchronous
`db.connection('primary')` succeeds, returning the native handle the
kicked-off connect just created, still in readyState 2 (connecting) — not a
"not ready" failure; and once an explicit `manager.connect('primary')` has
resolved (one microtask turn), the same call succeeds and returns the live
(readyState 1) handle. -/
theorem Database.connection_first_call_and_after_connect :
    (∃ db2, Database.connection dbScenario (some "primary") =
      Except.ok ({ id := 0, readyState := 2 }, db2)) ∧
    (∃ m2 h db3,
      ConnectionManager.connectResolved dbScenario.manager "primary" = Except.ok m2 ∧
      ConnectionManager.isConnected m2 "primary" = true ∧
      Database.connection { dbScenario with manager := m2 } (some "primary") =
        Except.ok (h, db3) ∧
      h.readyState = 1) := by
  refine ⟨⟨dbScenarioAfterFirst, ?_⟩,
    mgrScenarioConnected,
    (exceptGetD dbScenarioSecondCall ({ id := 0, readyState := 0 }, dbScenario)).1,
    (exceptGetD dbScenarioSecondCall ({ id := 0, readyState := 0 }, dbScenario)).2,
    ?_, ?_, ?_, ?_⟩ <;> rfl

/-- Filtering out a predicate leaves nothing satisfying it. -/
theorem any_filter_not (l : List α) (p : α → Bool) :
    (l.filter (fun a => !(p a))).any p = false := by
  induction l with
  | nil => rfl
  | cons hd tl ih =>
    by_cases h : p hd = true
    · simp [List.filter, h, ih]
    · simp only [Bool.not_eq_true] at h
      simp [List.filter, h, ih]

/-- C2: for a registered name with a live connection, `patch(name, newCfg)`
moves that `Connection` into the orphan set and starts its disconnect
asynchronously (the embedding records it in `pendingDisconnects`; its
`.catch` logs errors, so `patch` is total), resets the node to `registered`
with the new config and no connection reference — hence `isConnected` is
false immediately after and a lookup returns the reference-free node, never
the stale handle; when that orphan disconnect later completes, exactly one
disconnect event is emitted for it, the orphan set drops it, and the
registry (the node) is untouched. For a never-registered name, `patch`
behaves exactly like `add`. -/
theorem ConnectionManager.patch_semantics (s : ManagerState) (connectionName : String)
    (config : MongooseConnectionConfig) :
    (∀ node c, ManagerState.get s connectionName = some node →
      node.connection = some c →
      ((ConnectionManager.patch s connectionName config).orphans.any
          (fun o => o.id == c.id) = true) ∧
      (ConnectionManager.patch s connectionName config).pendingDisconnects =
        s.pendingDisconnects ++ [c] ∧
      ManagerState.get (ConnectionManager.patch s connectionName config) connectionName =
        some { node with state := NodeState.registered, config := config,
                         connection := none } ∧
      ConnectionManager.isConnected (ConnectionManager.patch s connectionName config)
        connectionName = false ∧
      (c.handle.isSome = true → (c.state == ConnState.disconnected) = false →
        ConnectionManager.disconnectConn (ConnectionManager.patch s connectionName config)
            (some c) =
          { ConnectionManager.patch s connectionName config with
            orphans := (ConnectionManager.patch s connectionName config).orphans.filter
              (fun o => !(o.id == c.id)),
            events := (ConnectionManager.patch s connectionName config).events ++
              [{ kind := DbEventKind.disconnect, connection := c.name }] } ∧
        ((ConnectionManager.patch s connectionName config).orphans.filter
            (fun o => !(o.id == c.id))).any (fun o => o.id == c.id) = false)) ∧
    (ManagerState.get s connectionName = none →
      ConnectionManager.patch s connectionName config =
        ConnectionManager.add s connectionName config) := by
  constructor
  · intro node c hget hc
    have hget2 : assocGet s.connections connectionName = some node := hget
    have horph : (ConnectionManager.patch s connectionName config).orphans.any
        (fun o => o.id == c.id) = true := by
      by_cases hmem : s.orphans.any (fun o => o.id == c.id) = true
      · simp [ConnectionManager.patch, ManagerState.get, hget2, hc, hmem]
      · simp only [Bool.not_eq_true] at hmem
        simp [ConnectionManager.patch, ManagerState.get, hget2, hc, hmem]
    refine ⟨horph, ?_, ?_, ?_, ?_⟩
    · simp [ConnectionManager.patch, ManagerState.get, hget2, hc]
    · simp [ConnectionManager.patch, hget2, hc, ManagerState.get, assocGet_set_self]
    · simp [ConnectionManager.isConnected, ConnectionManager.patch, hget2, hc,
        ManagerState.get, assocGet_set_self]
    · intro hhandle hstate
      have hguard : (c.handle.isNone || (c.state == ConnState.disconnected)) = false := by
        simp [Option.isNone, hstate]
        cases hh : c.handle with
        | none => rw [hh] at hhandle; simp at hhandle
        | some v => rfl
      constructor
      · simp only [ConnectionManager.disconnectConn, hguard, Bool.false_eq_true, if_false,
          ConnectionManager.handleDisconnect]
        rw [if_pos horph]
      · exact any_filter_not _ _
  · intro hnone
    simp [ConnectionManager.patch, hnone]

/-- The live wrapper created by the scenario's resolved connect. -/
def scenarioConn : Conn :=
  { id := 0, name := "primary",
    config := { uri := some "mongodb://localhost/test", connection := none, debug := none },
    state := ConnState.connected, handle := some { id := 0, readyState := 1 } }

/-- The scenario's registry node once connected. -/
def scenarioNode : ConnectionNode :=
  { name := "primary",
    config := { uri := some "mongodb://localhost/test", connection := none, debug := none },
    connection := some scenarioConn, state := NodeState.open_ }

/-- A replacement config handed to `patch`. -/
def cfgPatched : MongooseConnectionConfig :=
  { uri := some "mongodb://localhost/test2", connection := none, debug := none }

/-- C2 witness: patching the connected scenario manager orphans the live
wrapper, resets the node, and leaves `isConnected` false. -/
theorem ConnectionManager.patch_semantics_witness :
    (ConnectionManager.patch mgrScenarioConnected "primary" cfgPatched).orphans.any
        (fun o => o.id == scenarioConn.id) = true ∧
    ConnectionManager.isConnected
        (ConnectionManager.patch mgrScenarioConnected "primary" cfgPatched) "primary" =
      false ∧
    ManagerState.get (ConnectionManager.patch mgrScenarioConnected "primary" cfgPatched)
        "primary" =
      some { scenarioNode with state := NodeState.registered, config := cfgPatched,
                               connection := none } := by
  obtain ⟨h1, _, h3, h4, _⟩ :=
    (ConnectionManager.patch_semantics mgrScenarioConnected "primary" cfgPatched).1
      scenarioNode scenarioConn rfl rfl
  exact ⟨h1, h4, h3⟩


/-- `#handleDisconnect` keeps an entry for every registered name, preserving
its `name` and `config`; only the state may move to `closed` (with the
connection reference cleared). -/
theorem ConnectionManager.handleDisconnect_entry (s : ManagerState) (c : Conn)
    (n : String) (node : ConnectionNode) (h : ManagerState.get s n = some node) :
    ∃ node2, ManagerState.get (ConnectionManager.handleDisconnect s c) n = some node2 ∧
      node2.name = node.name ∧ node2.config = node.config ∧
      (node2.state = node.state ∨ node2.state = NodeState.closed) := by
  unfold ConnectionManager.handleDisconnect
  by_cases horph : s.orphans.any (fun o => o.id == c.id) = true
  · rw [if_pos horph]
    exact ⟨node, h, rfl, rfl, Or.inl rfl⟩
  · rw [if_neg horph]
    cases hcn : ManagerState.get s c.name with
    | none =>
      simp only [hcn]
      exact ⟨node, h, rfl, rfl, Or.inl rfl⟩
    | some node3 =>
      simp only [hcn]
      by_cases heq : c.name = n
      · subst heq
        rw [h] at hcn
        have hnn : node = node3 := Option.some.inj hcn
        subst hnn
        refine ⟨{ node with connection := none, state := NodeState.closed },
          ?_, rfl, rfl, Or.inr rfl⟩
        simp [ManagerState.get, assocGet_set_self]
      · refine ⟨node, ?_, rfl, rfl, Or.inl rfl⟩
        show assocGet (assocSet s.connections c.name _) n = some node
        rw [assocGet_set_ne _ _ _ _ (fun e => heq e.symm)]
        exact h

/-- `Connection.disconnect` (as driven through the manager) keeps an entry
for every registered name, preserving its `name` and `config`. -/
theorem ConnectionManager.disconnectConn_entry (s : ManagerState) (oc : Option Conn)
    (n : String) (node : ConnectionNode) (h : ManagerState.get s n = some node) :
    ∃ node2, ManagerState.get (ConnectionManager.disconnectConn s oc) n = some node2 ∧
      node2.name = node.name ∧ node2.config = node.config ∧
      (node2.state = node.state ∨ node2.state = NodeState.closed) := by
  cases oc with
  | none => exact ⟨node, h, rfl, rfl, Or.inl rfl⟩
  | some c =>
    simp only [ConnectionManager.disconnectConn]
    by_cases hg : (c.handle.isNone || (c.state == ConnState.disconnected)) = true
    · rw [if_pos hg]
      exact ⟨node, h, rfl, rfl, Or.inl rfl⟩
    · rw [if_neg hg]
      exact ConnectionManager.handleDisconnect_entry s _ n node h

/-- The connected branch of `close` keeps an entry for every registered
name, preserving its `name` and `config`. -/
theorem ConnectionManager.closeBody_entry (s : ManagerState) (n : String)
    (node : ConnectionNode) (h : ManagerState.get s n = some node) :
    ∃ node2, ManagerState.get (ConnectionManager.closeBody s n) n = some node2 ∧
      node2.name = node.name ∧ node2.config = node.config := by
  unfold ConnectionManager.closeBody
  by_cases hc : ConnectionManager.isConnected s n = true
  · rw [if_pos hc]
    simp only [h]
    have h3 : ManagerState.get
        { s with connections := assocSet s.connections n { node with state := NodeState.closing } }
        n = some { node with state := NodeState.closing } := by
      simp [ManagerState.get, assocGet_set_self]
    obtain ⟨node2, hh, hn, hcfg, _⟩ :=
      ConnectionManager.disconnectConn_entry _ node.connection n _ h3
    exact ⟨node2, hh, by rw [hn], by rw [hcfg]⟩
  · rw [if_neg hc]
    exact ⟨node, h, rfl, rfl⟩

/-- After the connected branch of `close` has run, the name is no longer
`isConnected`: the node was put into `closing` before the disconnect, and
`#handleDisconnect` can only move it to `closed`. -/
theorem ConnectionManager.isConnected_closeBody_false (s : ManagerState) (n : String) :
    ConnectionManager.isConnected (ConnectionManager.closeBody s n) n = false := by
  by_cases hc : ConnectionManager.isConnected s n = true
  · cases hg : ManagerState.get s n with
    | none => simp [ConnectionManager.isConnected, hg] at hc
    | some node =>
      unfold ConnectionManager.closeBody
      rw [if_pos hc]
      simp only [hg]
      have h3 : ManagerState.get
          { s with connections := assocSet s.connections n { node with state := NodeState.closing } }
          n = some { node with state := NodeState.closing } := by
        simp [ManagerState.get, assocGet_set_self]
      obtain ⟨node2, hh, _, _, hstate⟩ :=
        ConnectionManager.disconnectConn_entry _ node.connection n _ h3
      have hne : node2.state ≠ NodeState.open_ := by
        rcases hstate with h | h <;> simp [h]
      simp [ConnectionManager.isConnected, hh, hne]
  · unfold ConnectionManager.closeBody
    rw [if_neg hc]
    simp only [Bool.not_eq_true] at hc
    exact hc

/-- C4: after `close(name, release=true)` resolves, `get(name)` returns
`undefined` (the entry is removed); after `close(name, release=false)`
resolves, `get(name)` still returns a node for every previously registered
name, with its `name` and `config` untouched — only state and connection
reference may have changed. -/
theorem ConnectionManager.close_release_registry (s : ManagerState)
    (connectionName : String) :
    ManagerState.get (ConnectionManager.close s connectionName true) connectionName =
      none ∧
    (∀ node, ManagerState.get s connectionName = some node →
      ∃ node2, ManagerState.get (ConnectionManager.close s connectionName false)
          connectionName = some node2 ∧
        node2.name = node.name ∧ node2.config = node.config) := by
  constructor
  · have h1 : ConnectionManager.isConnected
        (ConnectionManager.closeBody s connectionName) connectionName = false :=
      ConnectionManager.isConnected_closeBody_false s connectionName
    have e : ConnectionManager.close s connectionName true =
        ConnectionManager.releaseFuel 1 (ConnectionManager.closeBody s connectionName)
          connectionName := rfl
    have e2 : ConnectionManager.releaseFuel 1
        (ConnectionManager.closeBody s connectionName) connectionName =
        { ConnectionManager.closeBody s connectionName with
          connections := assocDel
            (ConnectionManager.closeBody s connectionName).connections connectionName } := by
      show (if ConnectionManager.isConnected (ConnectionManager.closeBody s connectionName)
          connectionName then _ else _) = _
      rw [h1]
      simp
    rw [e, e2]
    show assocGet (assocDel _ _) _ = none
    exact assocGet_del_self _ _
  · intro node h
    have e : ConnectionManager.close s connectionName false =
        ConnectionManager.closeBody s connectionName := rfl
    rw [e]
    exact ConnectionManager.closeBody_entry s connectionName node h

/-- C4 witness: closing the connected scenario manager with release removes
the entry; without release the node survives with name and config intact. -/
theorem ConnectionManager.close_release_registry_witness :
    ManagerState.get (ConnectionManager.close mgrScenarioConnected "primary" true)
      "primary" = none ∧
    (∃ node2, ManagerState.get (ConnectionManager.close mgrScenarioConnected "primary"
        false) "primary" = some node2 ∧
      node2.name = scenarioNode.name ∧ node2.config = scenarioNode.config) :=
  ⟨(ConnectionManager.close_release_registry mgrScenarioConnected "primary").1,
   (ConnectionManager.close_release_registry mgrScenarioConnected "primary").2
     scenarioNode rfl⟩

/-- C10: `release(name)` and `close(name, release=true)` terminate with
mutual-recursion depth at most two: any extra fuel beyond the entry points'
budget (2 for `close`, 3 for `release`) is never consumed, because `close`
sets the node to `closing` before awaiting the disconnect, so inside the
nested `release` call `isConnected(name)` is false and the non-recursive
delete branch is taken. -/
theorem ConnectionManager.close_release_terminate (k : Nat) (s : ManagerState)
    (connectionName : String) (release : Bool) :
    ConnectionManager.closeFuel (k + 2) s connectionName release =
      ConnectionManager.closeFuel 2 s connectionName release ∧
    ConnectionManager.releaseFuel (k + 3) s connectionName =
      ConnectionManager.releaseFuel 3 s connectionName := by
  have h1 : ConnectionManager.isConnected
      (ConnectionManager.closeBody s connectionName) connectionName = false :=
    ConnectionManager.isConnected_closeBody_false s connectionName
  have hrel : ∀ m, ConnectionManager.releaseFuel (m + 1)
      (ConnectionManager.closeBody s connectionName) connectionName =
      { ConnectionManager.closeBody s connectionName with
        connections := assocDel
          (ConnectionManager.closeBody s connectionName).connections connectionName } := by
    intro m
    show (if ConnectionManager.isConnected (ConnectionManager.closeBody s connectionName)
        connectionName then _ else _) = _
    rw [h1]
    simp
  have hck : ∀ j r, ConnectionManager.closeFuel (j + 2) s connectionName r =
      if r then
        { ConnectionManager.closeBody s connectionName with
          connections := assocDel
            (ConnectionManager.closeBody s connectionName).connections connectionName }
      else ConnectionManager.closeBody s connectionName := by
    intro j r
    cases r with
    | false => rfl
    | true =>
      show ConnectionManager.releaseFuel (j + 1)
          (ConnectionManager.closeBody s connectionName) connectionName = _
      rw [hrel j]
      simp
  have hclose : ∀ j r, ConnectionManager.closeFuel (j + 2) s connectionName r =
      ConnectionManager.closeFuel 2 s connectionName r := by
    intro j r
    have e0 : ConnectionManager.closeFuel 2 s connectionName r =
        (if r then
          { ConnectionManager.closeBody s connectionName with
            connections := assocDel
              (ConnectionManager.closeBody s connectionName).connections connectionName }
        else ConnectionManager.closeBody s connectionName) := hck 0 r
    rw [hck j r, e0]
  refine ⟨hclose k release, ?_⟩
  by_cases hi : ConnectionManager.isConnected s connectionName = true
  · have l : ConnectionManager.releaseFuel (k + 3) s connectionName =
        ConnectionManager.closeFuel (k + 2) s connectionName true := by
      show (if ConnectionManager.isConnected s connectionName then
          ConnectionManager.closeFuel (k + 2) s connectionName true else _) = _
      rw [hi]
      simp
    have r : ConnectionManager.releaseFuel 3 s connectionName =
        ConnectionManager.closeFuel 2 s connectionName true := by
      show (if ConnectionManager.isConnected s connectionName then
          ConnectionManager.closeFuel 2 s connectionName true else _) = _
      rw [hi]
      simp
    rw [l, r]
    exact hclose k true
  · have l : ConnectionManager.releaseFuel (k + 3) s connectionName =
        { s with connections := assocDel s.connections connectionName } := by
      show (if ConnectionManager.isConnected s connectionName then
          ConnectionManager.closeFuel (k + 2) s connectionName true
        else { s with connections := assocDel s.connections connectionName }) = _
      rw [if_neg hi]
    have r : ConnectionManager.releaseFuel 3 s connectionName =
        { s with connections := assocDel s.connections connectionName } := by
      show (if ConnectionManager.isConnected s connectionName then
          ConnectionManager.closeFuel 2 s connectionName true
        else { s with connections := assocDel s.connections connectionName }) = _
      rw [if_neg hi]
    rw [l, r]

/-- C5: after `add(name, cfg)` (name fresh, config valid), once
`connect(name)` resolves with the `connected` event processed,
`isConnected(name)` is true; and a second `connect(name)` in that state
returns immediately with the state unchanged — in particular `nextId` stays
at `s.nextId + 1`, so exactly one underlying `Connection` was constructed
and the second call constructed none. -/
theorem ConnectionManager.add_then_connect (s : ManagerState) (connectionName : String)
    (config : MongooseConnectionConfig)
    (h1 : ManagerState.get s connectionName = none)
    (h2 : Connection.validateConfig connectionName config = Except.ok ()) :
    ∃ s2, ConnectionManager.connectResolved
        (ConnectionManager.add s connectionName config) connectionName =
        Except.ok s2 ∧
      ConnectionManager.isConnected s2 connectionName = true ∧
      ConnectionManager.connectResolved s2 connectionName = Except.ok s2 ∧
      s2.nextId = s.nextId + 1 := by
  have e1 : ConnectionManager.add s connectionName config =
      { s with connections := s.connections ++
          [(connectionName,
            { name := connectionName, config := config, connection := none,
              state := NodeState.registered })] } := by
    simp [ConnectionManager.add, ManagerState.has, h1]
  set nodeR : ConnectionNode :=
    { name := connectionName, config := config, connection := none,
      state := NodeState.registered } with hnodeR
  set s1 : ManagerState :=
    { s with connections := s.connections ++ [(connectionName, nodeR)] } with hs1
  have e2 : ManagerState.get s1 connectionName = some nodeR :=
    assocGet_append_absent s.connections connectionName nodeR h1
  have e3 : ConnectionManager.isConnected s1 connectionName = false := by
    simp [ConnectionManager.isConnected, e2, hnodeR]
  set cdone : Conn :=
    { id := s.nextId, name := connectionName, config := config,
      state := ConnState.connected, handle := some { id := s.nextId, readyState := 1 } }
    with hcdone
  set node3 : ConnectionNode :=
    { name := connectionName, config := config, connection := some cdone,
      state := NodeState.connecting } with hnode3
  set s3 : ManagerState :=
    { s1 with connections := assocSet s1.connections connectionName node3,
              nextId := s.nextId + 1 } with hs3
  have e4 : ManagerState.get s3 connectionName = some node3 :=
    assocGet_set_self s1.connections connectionName node3
  set node4 : ConnectionNode := { node3 with state := NodeState.open_ } with hnode4
  set s4 : ManagerState :=
    { s3 with
      events := s3.events ++
        [{ kind := DbEventKind.connect, connection := connectionName }],
      connections := assocSet s3.connections connectionName node4 } with hs4
  have e5 : ConnectionManager.handleConnect s3 cdone = s4 := by
    simp only [ConnectionManager.handleConnect, hcdone]
    rw [show ManagerState.get s3 connectionName = some node3 from e4]
  have e6 : ConnectionManager.connectResolved s1 connectionName = Except.ok s4 := by
    simp only [ConnectionManager.connectResolved, e2, e3, Bool.false_eq_true, if_false,
      hnodeR, h2]
    rw [← e5]
  have e7 : ManagerState.get s4 connectionName = some node4 :=
    assocGet_set_self s3.connections connectionName node4
  have e8 : ConnectionManager.isConnected s4 connectionName = true := by
    simp [ConnectionManager.isConnected, e7, hnode4, hnode3]
  have e9 : ConnectionManager.connectResolved s4 connectionName = Except.ok s4 := by
    simp [ConnectionManager.connectResolved, e7, e8]
  refine ⟨s4, ?_, e8, e9, rfl⟩
  rw [e1]
  exact e6

/-- The scenario connection config on its own. -/
def cfgScenario : MongooseConnectionConfig :=
  { uri := some "mongodb://localhost/test", connection := none, debug := none }

/-- C5 witness: adding and connecting `primary` on the empty manager. -/
theorem ConnectionManager.add_then_connect_witness :
    ∃ s2, ConnectionManager.connectResolved
        (ConnectionManager.add ManagerState.empty "primary" cfgScenario) "primary" =
        Except.ok s2 ∧
      ConnectionManager.isConnected s2 "primary" = true ∧
      ConnectionManager.connectResolved s2 "primary" = Except.ok s2 ∧
      s2.nextId = ManagerState.empty.nextId + 1 :=
  ConnectionManager.add_then_connect ManagerState.empty "primary" cfgScenario rfl rfl

/-- A successful association lookup is a membership. -/
theorem assocGet_mem (l : List (String × α)) (k : String) (v : α)
    (h : assocGet l k = some v) : (k, v) ∈ l := by
  induction l with
  | nil => simp [assocGet] at h
  | cons hd tl ih =>
    obtain ⟨key, old⟩ := hd
    by_cases hk : key = k
    · subst hk
      simp [assocGet] at h
      simp [h]
    · simp only [assocGet, if_neg hk] at h
      exact List.mem_cons_of_mem _ (ih h)

/-- A successful `Database.connection` leaves the primary connection name
unchanged (the facade only swaps its manager). -/
theorem Database.connection_ok_shape (db : Database) (arg : Option String)
    (nc : NativeConn) (db2 : Database)
    (he : Database.connection db arg = Except.ok (nc, db2)) :
    db2.primaryConnectionName = db.primaryConnectionName := by
  simp only [Database.connection] at he
  split at he
  · simp at he
  · split at he
    · simp at he
    · split at he
      · simp at he
      · simp only [Except.ok.injEq, Prod.mk.injEq] at he
        obtain ⟨_, he2⟩ := he
        rw [← he2]

/-- A cache hit returns the cached model and leaves the state unchanged. -/
theorem BaseModel.getModel_hit (cls : ModelClass) (st : AppState) (m : CompiledModel)
    (hsch : cls.schema.isNone = false)
    (hhit : assocGet st.modelCache (BaseModel.cacheKey cls st) = some m) :
    BaseModel.getModel cls st = Except.ok (m, st) := by
  simp [BaseModel.getModel, hsch, hhit]

/-- A cache miss with a resolvable connection compiles a fresh model (with
the current counter as identity), caches it, and bumps the counter. -/
theorem BaseModel.getModel_miss (cls : ModelClass) (st : AppState)
    (hsch : cls.schema.isNone = false)
    (hmiss : assocGet st.modelCache (BaseModel.cacheKey cls st) = none)
    (nc : NativeConn) (db2 : Database)
    (hdb : Database.connection st.db (some (BaseModel.resolvedConnectionName cls st)) =
      Except.ok (nc, db2)) :
    BaseModel.getModel cls st = Except.ok
      ({ id := st.nextModelId, modelName := cls.className },
       { db := db2,
         modelCache := assocSet st.modelCache (BaseModel.cacheKey cls st)
           { id := st.nextModelId, modelName := cls.className },
         nextModelId := st.nextModelId + 1 }) := by
  simp [BaseModel.getModel, hsch, hmiss, hdb]

/-- A cache miss whose connection resolution throws propagates the error. -/
theorem BaseModel.getModel_miss_err (cls : ModelClass) (st : AppState)
    (hsch : cls.schema.isNone = false)
    (hmiss : assocGet st.modelCache (BaseModel.cacheKey cls st) = none)
    (e : String)
    (hdb : Database.connection st.db (some (BaseModel.resolvedConnectionName cls st)) =
      Except.error e) :
    BaseModel.getModel cls st = Except.error e := by
  simp [BaseModel.getModel, hsch, hmiss, hdb]

/-- C6: with a well-formed cache, once `getModel()` has returned a model
`m`, an immediately repeated `getModel()` returns the identical object with
the state untouched (so `connection.model` is compiled at most once per
(connection, class) pair while the cache holds); and when, after
`clearCache()`, the next `getModel()` succeeds, it compiles a distinct
object (fresh identity) and bumps the compile counter. -/
theorem BaseModel.getModel_cache_behavior (cls : ModelClass) (st : AppState)
    (m : CompiledModel) (st1 : AppState) (m2 : CompiledModel) (st2 : AppState)
    (hwf : modelCacheWF st = true)
    (h1 : BaseModel.getModel cls st = Except.ok (m, st1))
    (h2 : BaseModel.getModel cls (BaseModel.clearCache st1) = Except.ok (m2, st2)) :
    BaseModel.getModel cls st1 = Except.ok (m, st1) ∧
    m2.id ≠ m.id ∧ st2.nextModelId = st1.nextModelId + 1 := by
  have hsch : cls.schema.isNone = false := by
    cases hx : cls.schema.isNone
    · rfl
    · simp [BaseModel.getModel, hx] at h1
  have hstep : m.id < st1.nextModelId ∧
      BaseModel.getModel cls st1 = Except.ok (m, st1) := by
    cases hcache : assocGet st.modelCache (BaseModel.cacheKey cls st) with
    | some m0 =>
      have e := BaseModel.getModel_hit cls st m0 hsch hcache
      rw [e] at h1
      simp only [Except.ok.injEq, Prod.mk.injEq] at h1
      obtain ⟨hm, hst⟩ := h1
      subst hm
      subst hst
      constructor
      · have hmem := assocGet_mem _ _ _ hcache
        have hall := List.all_eq_true.mp hwf _ hmem
        exact of_decide_eq_true hall
      · exact e
    | none =>
      cases hdb : Database.connection st.db
          (some (BaseModel.resolvedConnectionName cls st)) with
      | error er =>
        rw [BaseModel.getModel_miss_err cls st hsch hcache er hdb] at h1
        simp at h1
      | ok pr =>
        obtain ⟨nc, db2⟩ := pr
        have e := BaseModel.getModel_miss cls st hsch hcache nc db2 hdb
        rw [e] at h1
        simp only [Except.ok.injEq, Prod.mk.injEq] at h1
        obtain ⟨hm, hst⟩ := h1
        constructor
        · rw [← hst, ← hm]
          exact Nat.lt_succ_self _
        · have hprim : db2.primaryConnectionName = st.db.primaryConnectionName :=
            Database.connection_ok_shape st.db _ nc db2 hdb
          have hname : BaseModel.resolvedConnectionName cls st1 =
              BaseModel.resolvedConnectionName cls st := by
            rw [← hst]
            by_cases ht : truthyStr cls.connection = true
            · simp [BaseModel.resolvedConnectionName, ht]
            · simp only [Bool.not_eq_true] at ht
              simp [BaseModel.resolvedConnectionName, ht, hprim]
          have hkey : BaseModel.cacheKey cls st1 = BaseModel.cacheKey cls st := by
            simp [BaseModel.cacheKey, hname]
          have hhit : assocGet st1.modelCache (BaseModel.cacheKey cls st1) = some m := by
            rw [hkey, ← hst]
            exact hm ▸ assocGet_set_self st.modelCache (BaseModel.cacheKey cls st) _
          exact BaseModel.getModel_hit cls st1 m hsch hhit
  obtain ⟨hmlt1, hsecond⟩ := hstep
  have hempty : assocGet (BaseModel.clearCache st1).modelCache
      (BaseModel.cacheKey cls (BaseModel.clearCache st1)) = none := rfl
  cases hdb2 : Database.connection (BaseModel.clearCache st1).db
      (some (BaseModel.resolvedConnectionName cls (BaseModel.clearCache st1))) with
  | error er =>
    rw [BaseModel.getModel_miss_err _ _ hsch hempty er hdb2] at h2
    simp at h2
  | ok pr =>
    obtain ⟨nc2, db3⟩ := pr
    have e2 := BaseModel.getModel_miss _ _ hsch hempty nc2 db3 hdb2
    rw [e2] at h2
    simp only [Except.ok.injEq, Prod.mk.injEq] at h2
    obtain ⟨hm2, hst2⟩ := h2
    refine ⟨hsecond, ?_, ?_⟩
    · rw [← hm2]
      exact fun hh => absurd hh.symm (Nat.ne_of_lt hmlt1)
    · rw [← hst2]
      rfl

/-- A `BaseModel` subclass bound to the primary connection. -/
def clsUser : ModelClass :=
  { className := "User", connection := none, collectionName := none, schema := some 0 }

/-- The process state at boot: scenario database injected, empty cache. -/
def appScenario : AppState := { db := dbScenario, modelCache := [], nextModelId := 0 }

/-- The first `getModel()` call of the witness scenario. -/
def appScenarioFirst : Except String (CompiledModel × AppState) :=
  BaseModel.getModel clsUser appScenario

/-- The model returned by the first call. -/
def modelFirst : CompiledModel :=
  (exceptGetD appScenarioFirst ({ id := 99, modelName := "" }, appScenario)).1

/-- The process state after the first call. -/
def appStateAfterFirst : AppState :=
  (exceptGetD appScenarioFirst ({ id := 99, modelName := "" }, appScenario)).2

/-- The `getModel()` call after `clearCache()`. -/
def appScenarioSecond : Except String (CompiledModel × AppState) :=
  BaseModel.getModel clsUser (BaseModel.clearCache appStateAfterFirst)

/-- The model returned after `clearCache()`. -/
def modelSecond : CompiledModel :=
  (exceptGetD appScenarioSecond ({ id := 99, modelName := "" }, appScenario)).1

/-- The process state after the post-`clearCache` call. -/
def appStateAfterSecond : AppState :=
  (exceptGetD appScenarioSecond ({ id := 99, modelName := "" }, appScenario)).2

/-- C6 witness: on the concrete scenario, the repeated call returns the
identical cached model with the state unchanged, and the post-`clearCache`
call compiles a distinct one. -/
theorem BaseModel.getModel_cache_behavior_witness :
    BaseModel.getModel clsUser appStateAfterFirst =
      Except.ok (modelFirst, appStateAfterFirst) ∧
    modelSecond.id ≠ modelFirst.id ∧
    appStateAfterSecond.nextModelId = appStateAfterFirst.nextModelId + 1 :=
  BaseModel.getModel_cache_behavior clsUser appScenario modelFirst appStateAfterFirst
    modelSecond appStateAfterSecond rfl rfl rfl
